import Mathlib

/-
Verification of the logical-property and cardinality-estimation layer of the
cockroach query optimizer, against:
  * pkg/sql/opt/ops/relational.opt            (operator catalog and tags)
  * pkg/sql/opt/memo/testdata/stats/set       (recorded statistics expectations)
  * pkg/security/password.go                  (password prompting)
The statistics derivation engine itself is not part of the source snapshot;
its behaviour is modelled from the specification and checked against the
expected outputs recorded in the testdata file, which are embedded below.
-/

namespace CockroachSpec

/-- ColumnID mirrors opt.ColumnID: an opaque integer identifying one column
instance inside a query. -/
abbrev ColumnID := Nat

/-- ColumnStatistic mirrors props.ColumnStatistic: the distinct-count and
null-count estimate for one column subset.  Counts are rationals because the
engine works with fractional estimates. -/
structure ColumnStatistic where
  distinctCount : ℚ
  nullCount : ℚ
deriving DecidableEq

/-- RelStats summarizes the statistics of one relational expression: its
output columns, row count, and the per-column-subset statistics (the colStats
map, modelled as a total function on column sets). -/
structure RelStats where
  cols : Finset ColumnID
  rowCount : ℚ
  colStat : Finset ColumnID → ColumnStatistic

/-- SetPrivate mirrors the SetPrivate record of relational.opt (lines 481-486):
the positional correspondence between the left input columns, the right input
columns, and the output columns of a set operator. -/
structure SetPrivate where
  LeftCols : List ColumnID
  RightCols : List ColumnID
  OutCols : List ColumnID

/-- SetOp enumerates the six relational set operators of relational.opt. -/
inductive SetOp where
  | union
  | intersect
  | except
  | unionAll
  | intersectAll
  | exceptAll
deriving DecidableEq

/-- A set operator removes duplicate rows exactly when it is one of the three
non-All variants (see the operator comments in relational.opt). -/
def SetOp.removesDuplicates : SetOp → Bool
  | .union => true
  | .intersect => true
  | .except => true
  | .unionAll => false
  | .intersectAll => false
  | .exceptAll => false

/-- Modelled from the spec: the column-set translation used by the set
operators (the derivation engine is absent from the source snapshot).  A
subset of one column list of a SetPrivate is mapped positionally to the
corresponding columns of another list. -/
def translateColSet (s : Finset ColumnID) (fromCols toCols : List ColumnID) :
    Finset ColumnID :=
  (((fromCols.zip toCols).filter (fun p => decide (p.1 ∈ s))).map
    (fun p => p.2)).toFinset

/-- Modelled from the spec: the null count of one input side after the
implicit duplicate elimination performed by the non-All set operators.  The
spec (section 9) leaves the exact formula open, pinning it to the recorded
test expectations of pkg/sql/opt/memo/testdata/stats/set: a single-column set
covering the whole input relation retains at most one null row, and otherwise
the null count is rescaled by (distinctCount + 1) / rowCount, which preserves
the null fraction over the deduplicated rows (distinct values plus one null
group). -/
def distinctifiedNullCount (inputCols sideCols : Finset ColumnID)
    (cs : ColumnStatistic) (inputRowCount : ℚ) : ℚ :=
  if sideCols.card = 1 ∧ sideCols = inputCols then min cs.nullCount 1
  else cs.nullCount * (cs.distinctCount + 1) / inputRowCount

/-- Modelled from the spec: the per-column-set statistics of a set operator
(the derivation engine is absent from the source snapshot).  The requested
column set is translated to each input side; distinct counts combine as
sum (union), minimum (intersection) or the left value (except); null counts
combine the same way, after per-side duplicate elimination for the non-All
variants.  The combination rules are fixed by the recorded expectations of
pkg/sql/opt/memo/testdata/stats/set. -/
def setOpColStat (op : SetOp) (left right : RelStats) (sp : SetPrivate)
    (s : Finset ColumnID) : ColumnStatistic :=
  let ls := translateColSet s sp.OutCols sp.LeftCols
  let rs := translateColSet s sp.OutCols sp.RightCols
  let lcs := left.colStat ls
  let rcs := right.colStat rs
  let ln := if op.removesDuplicates
    then distinctifiedNullCount left.cols ls lcs left.rowCount
    else lcs.nullCount
  let rn := if op.removesDuplicates
    then distinctifiedNullCount right.cols rs rcs right.rowCount
    else rcs.nullCount
  match op with
  | .union => ⟨lcs.distinctCount + rcs.distinctCount, ln + rn⟩
  | .unionAll => ⟨lcs.distinctCount + rcs.distinctCount, ln + rn⟩
  | .intersect => ⟨min lcs.distinctCount rcs.distinctCount, min ln rn⟩
  | .intersectAll => ⟨min lcs.distinctCount rcs.distinctCount, min ln rn⟩
  | .except => ⟨lcs.distinctCount, ln⟩
  | .exceptAll => ⟨lcs.distinctCount, ln⟩

/-- Modelled from the spec: the derived row count of a set operator.  UnionAll
adds the input row counts, IntersectAll takes their minimum, ExceptAll keeps
the left row count; the duplicate-eliminating variants report the derived
distinct count of the full output column set. -/
def setOpRowCount (op : SetOp) (left right : RelStats) (sp : SetPrivate) : ℚ :=
  match op with
  | .unionAll => left.rowCount + right.rowCount
  | .intersectAll => min left.rowCount right.rowCount
  | .exceptAll => left.rowCount
  | .union => (setOpColStat .union left right sp sp.OutCols.toFinset).distinctCount
  | .intersect =>
      (setOpColStat .intersect left right sp sp.OutCols.toFinset).distinctCount
  | .except =>
      (setOpColStat .except left right sp sp.OutCols.toFinset).distinctCount

/-- Modelled from the spec: the keys derived for a set operator.  Every
non-All set operator carries the full output column set as a key; the All
variants derive no keys in the recorded tests. -/
def setOpKeys (op : SetOp) (sp : SetPrivate) : List (Finset ColumnID) :=
  if op.removesDuplicates then [sp.OutCols.toFinset] else []

/-- Modelled from the spec: the statistics record derived for a set operator
node from the statistics of its two inputs and its SetPrivate. -/
def deriveSetOp (op : SetOp) (left right : RelStats) (sp : SetPrivate) :
    RelStats :=
  ⟨sp.OutCols.toFinset, setOpRowCount op left right sp,
    setOpColStat op left right sp⟩

/-- Default statistic for a column set the testdata does not record. -/
def statUnknown : ColumnStatistic := ⟨0, 0⟩

/-
Concrete inputs embedded from pkg/sql/opt/memo/testdata/stats/set.  Column
ids follow the testdata.  Each definition cites the lines it is taken from.
-/

/-- Statistics of the projection of table a onto (y:2, s:3): rows=5000,
distinct(2,3)=1000 (testdata lines 194-201), distinct(2)=400 (lines 553-556),
distinct(3)=10 (injected statistics, lines 47-52). -/
def aProjYS : RelStats :=
  ⟨{2, 3}, 5000, fun s =>
    if s = {2, 3} then ⟨1000, 0⟩
    else if s = {2} then ⟨400, 0⟩
    else if s = {3} then ⟨10, 0⟩
    else statUnknown⟩

/-- Statistics of the projection of table b onto (z:5, s:6): rows=10000,
distinct(5,6)=200 (testdata lines 202-209), distinct(5)=100 (lines 562-567). -/
def bProjZS : RelStats :=
  ⟨{5, 6}, 10000, fun s =>
    if s = {5, 6} then ⟨200, 0⟩
    else if s = {5} then ⟨100, 0⟩
    else if s = {6} then ⟨10, 0⟩
    else statUnknown⟩

/-- Statistics of the projection of table c onto (z:5, s:6): rows=10000,
distinct(5,6)=1000 (testdata lines 326-333). -/
def cProjZS : RelStats :=
  ⟨{5, 6}, 10000, fun s =>
    if s = {5, 6} then ⟨1000, 0⟩
    else if s = {5} then ⟨100, 0⟩
    else if s = {6} then ⟨10, 0⟩
    else statUnknown⟩

/-- Statistics of the projection of table a onto (y:2) alone: rows=5000,
distinct(2)=400 (testdata lines 553-561). -/
def aProjY : RelStats :=
  ⟨{2}, 5000, fun s => if s = {2} then ⟨400, 0⟩ else statUnknown⟩

/-- Statistics of the projection of table b onto (z:5) alone: rows=10000,
distinct(5)=100 (testdata lines 562-569). -/
def bProjZ : RelStats :=
  ⟨{5}, 10000, fun s => if s = {5} then ⟨100, 0⟩ else statUnknown⟩

/-- Statistics of the scan of table a with columns (x:1, y:2, s:3): rows=5000,
distinct(1,2,3)=5000 (testdata lines 129-133, 148-152). -/
def aScanStar : RelStats :=
  ⟨{1, 2, 3}, 5000, fun s =>
    if s = {1, 2, 3} then ⟨5000, 0⟩ else statUnknown⟩

/-- Statistics of the scan of table b with columns (x:4, z:5, s:6, rowid:7):
rows=10000, distinct(4,5,6,7)=10000 (testdata lines 134-138, 153-157). -/
def bScanStar : RelStats :=
  ⟨{4, 5, 6, 7}, 10000, fun s =>
    if s = {4, 5, 6, 7} then ⟨10000, 0⟩ else statUnknown⟩

/-- Statistics of the projection of table b onto (x:1, s:3) after the null
injection: rows=10000, distinct(1)=5000, null(1)=2500, distinct(3)=10,
null(3)=5000, distinct(1,3)=10000, null(1,3)=6250 (testdata lines 639-646,
794-801). -/
def bProjXS : RelStats :=
  ⟨{1, 3}, 10000, fun s =>
    if s = {1, 3} then ⟨10000, 6250⟩
    else if s = {1} then ⟨5000, 2500⟩
    else if s = {3} then ⟨10, 5000⟩
    else statUnknown⟩

/-- Statistics of the projection of table c onto (x:5, s:7) after the null
injection: rows=10000, distinct(5)=5000, null(5)=1000, distinct(7)=10,
null(7)=7500, distinct(5,7)=10000, null(5,7)=7750 (testdata lines 647-654,
802-809). -/
def cProjXS : RelStats :=
  ⟨{5, 7}, 10000, fun s =>
    if s = {5, 7} then ⟨10000, 7750⟩
    else if s = {5} then ⟨5000, 1000⟩
    else if s = {7} then ⟨10, 7500⟩
    else statUnknown⟩

/-- Statistics of the projection of table b onto (x:1) alone after the null
injection: rows=10000, distinct(1)=5000, null(1)=2500 (testdata
lines 717-724). -/
def bProjX : RelStats :=
  ⟨{1}, 10000, fun s => if s = {1} then ⟨5000, 2500⟩ else statUnknown⟩

/-- Statistics of the projection of table c onto (x:5) alone after the null
injection: rows=10000, distinct(5)=5000, null(5)=1000 (testdata
lines 725-732). -/
def cProjX : RelStats :=
  ⟨{5}, 10000, fun s => if s = {5} then ⟨5000, 1000⟩ else statUnknown⟩

/-- Statistics of the projection of table a onto (x:1, y:2): rows=5000,
distinct(1,2)=5000 (testdata lines 281-290). -/
def aProjXY : RelStats :=
  ⟨{1, 2}, 5000, fun s => if s = {1, 2} then ⟨5000, 0⟩ else statUnknown⟩

/-- Statistics of the projection of the filtered table b onto
(x:4, z:5, rowid:7): rows=2, distinct(4,5,7)=2 (testdata lines 291-295,
255-259). -/
def bFilteredProj : RelStats :=
  ⟨{4, 5, 7}, 2, fun s => if s = {4, 5, 7} then ⟨2, 0⟩ else statUnknown⟩

/-- SetPrivate of the Union of a and b over (y,s): Left [2,3], Right [5,6],
Out [8,9] (testdata lines 188-191). -/
def spUnionYS : SetPrivate := ⟨[2, 3], [5, 6], [8, 9]⟩

/-- SetPrivate of the Intersect and Except of a and b over (y,s): Left [2,3],
Right [5,6], Out [2,3] (testdata lines 338-341, 494-497). -/
def spLeftYS : SetPrivate := ⟨[2, 3], [5, 6], [2, 3]⟩

/-- SetPrivate of the spec scenario Union of a.y and b.z: Left [2], Right [5],
fresh output column 8 (spec section 8; not present in the testdata). -/
def spUnionY : SetPrivate := ⟨[2], [5], [8]⟩

/-- SetPrivate of the Union and UnionAll over all columns of a and b: Left
[1,2,3,1], Right [4,5,6,7], Out [8,9,10,11] (testdata lines 123-126,
143-146). -/
def spUnionStar : SetPrivate := ⟨[1, 2, 3, 1], [4, 5, 6, 7], [8, 9, 10, 11]⟩

/-- SetPrivate of the Union and UnionAll of b and c over (x,s) after the null
injection: Left [1,3], Right [5,7], Out [9,10] (testdata lines 633-636,
789-792). -/
def spUnionXS : SetPrivate := ⟨[1, 3], [5, 7], [9, 10]⟩

/-- SetPrivate of the Intersect, Except, IntersectAll and ExceptAll of b and c
over (x,s) after the null injection: Left [1,3], Right [5,7], Out [1,3]
(testdata lines 659-662, 685-688, 814-817, 839-842). -/
def spLeftXS : SetPrivate := ⟨[1, 3], [5, 7], [1, 3]⟩

/-- SetPrivate of the Union of b.x and c.x after the null injection: Left [1],
Right [5], Out [9] (testdata lines 711-714). -/
def spUnionX : SetPrivate := ⟨[1], [5], [9]⟩

/-- SetPrivate of the Intersect and Except of b.x and c.x after the null
injection: Left [1], Right [5], Out [1] (testdata lines 737-740, 763-766). -/
def spLeftX : SetPrivate := ⟨[1], [5], [1]⟩

/-- SetPrivate of the IntersectAll of (x,y,x from a) and the filtered b:
Left [1,2,1], Right [5,4,7], Out [1,2,1] (testdata lines 276-279). -/
def spIntersectXY : SetPrivate := ⟨[1, 2, 1], [5, 4, 7], [1, 2, 1]⟩

/-
Expected outputs recorded in pkg/sql/opt/memo/testdata/stats/set, embedded
verbatim.  These are the authoritative values the derivation is checked
against (fractional values are written as exact rationals: 1750.35 = 35007/20,
13.75 = 55/4, 14001.4 = 70007/5).
-/

/-- Recorded IntersectAll row count of testdata line 280 (left rows 5000,
right rows 2). -/
def expectedIntersectAllRows_line280 : ℚ := 2

/-- Recorded IntersectAll null(1) of testdata line 818 (left null(1)=2500,
right null(5)=1000). -/
def expectedIntersectAllNull1_line818 : ℚ := 1000

/-- Recorded Union null(9)=1750.35 of testdata line 637. -/
def expectedUnionNull9_line637 : ℚ := 35007 / 20

/-- Recorded Union null(10)=13.75 of testdata line 637. -/
def expectedUnionNull10_line637 : ℚ := 55 / 4

/-- Recorded Union null(9,10)=14001.4 of testdata line 637. -/
def expectedUnionNull910_line637 : ℚ := 70007 / 5

/-- Recorded Union null(9)=2 of testdata line 715. -/
def expectedUnionNull9_line715 : ℚ := 2

/-- Recorded UnionAll stats of testdata line 793: rows=20000,
distinct(9)=10000, null(9)=3500, distinct(10)=20, null(10)=12500,
distinct(9,10)=20000, null(9,10)=14000. -/
def expectedUnionAllNull9_line793 : ℚ := 3500

/-
Corpus of per-node observations recorded in pkg/sql/opt/memo/testdata/stats/set
for the key invariants (claim C7): every node of the testdata that displays a
key line, as a pair of its output column set and its derived keys.
-/

/-- Output columns and derived keys of every node displaying a key in the
testdata: scans (lines 129-138, 642-654), unions (123-128, 162-167, 188-193,
633-638, 711-716), intersects (239-244, 312-317, 338-343, 659-664, 737-742),
excepts (389-394, 468-473, 494-499, 685-690, 763-768), projects (245-249,
255-259, 396-399) and selects (260-264, 413-417). -/
def keyedNodes : List (Finset ColumnID × List (Finset ColumnID)) :=
  [({1, 2, 3}, [{1}]),
   ({4, 5, 6, 7}, [{7}]),
   ({8, 9, 10, 11}, [{8, 9, 10, 11}]),
   ({8, 9}, [{8, 9}]),
   ({1, 2}, [{1, 2}]),
   ({1, 2}, [{1}]),
   ({4, 5, 7}, [{7}]),
   ({2, 3}, [{2, 3}]),
   ({9, 10}, [{9, 10}]),
   ({1, 2, 3, 4}, [{4}]),
   ({5, 6, 7, 8}, [{8}]),
   ({1, 3}, [{1, 3}]),
   ({9}, [{9}]),
   ({1}, [{1}])]

/-- Observation of one non-All set-operator node of the testdata: output
column set, derived keys, derived row count, and the derived distinct count
of the full output column set. -/
structure SetNodeStats where
  outputCols : Finset ColumnID
  keys : List (Finset ColumnID)
  rowCount : Nat
  keyDistinctCount : Nat
deriving DecidableEq

/-- Every Union, Intersect and Except node of the testdata with its recorded
key, row count and distinct count of the full output column set (testdata
lines 123-128, 162-167, 188-193, 239-244, 312-317, 338-343, 389-394, 468-473,
494-499, 633-638, 659-664, 685-690, 711-716, 737-742, 763-768). -/
def nonAllSetNodes : List SetNodeStats :=
  [⟨{8, 9, 10, 11}, [{8, 9, 10, 11}], 15000, 15000⟩,
   ⟨{8, 9}, [{8, 9}], 2000, 2000⟩,
   ⟨{8, 9}, [{8, 9}], 1200, 1200⟩,
   ⟨{1, 2}, [{1, 2}], 2, 2⟩,
   ⟨{2, 3}, [{2, 3}], 1000, 1000⟩,
   ⟨{2, 3}, [{2, 3}], 200, 200⟩,
   ⟨{1, 2}, [{1, 2}], 5000, 5000⟩,
   ⟨{2, 3}, [{2, 3}], 1000, 1000⟩,
   ⟨{9, 10}, [{9, 10}], 20000, 20000⟩,
   ⟨{1, 3}, [{1, 3}], 10000, 10000⟩,
   ⟨{1, 3}, [{1, 3}], 10000, 10000⟩,
   ⟨{9}, [{9}], 10000, 10000⟩,
   ⟨{1}, [{1}], 5000, 5000⟩,
   ⟨{1}, [{1}], 5000, 5000⟩]

/-
Operator catalog of pkg/sql/opt/ops/relational.opt (claim C8): every operator
defined in the file, with the capability tags of its define statement.
-/

/-- Op enumerates every operator defined in relational.opt, in file order
(the Private records ScanPrivate, SetPrivate etc. are attribute records, not
operators). -/
inductive Op where
  | Scan
  | VirtualScan
  | Values
  | Select
  | Project
  | InnerJoin
  | LeftJoin
  | RightJoin
  | FullJoin
  | SemiJoin
  | AntiJoin
  | IndexJoin
  | LookupJoin
  | MergeJoin
  | InnerJoinApply
  | LeftJoinApply
  | RightJoinApply
  | FullJoinApply
  | SemiJoinApply
  | AntiJoinApply
  | GroupBy
  | ScalarGroupBy
  | DistinctOn
  | Union
  | Intersect
  | Except
  | UnionAll
  | IntersectAll
  | ExceptAll
  | Limit
  | Offset
  | Max1Row
  | Explain
  | ShowTraceForSession
  | RowNumber
  | Zip
deriving DecidableEq

/-- Tag enumerates the capability tags appearing on operator defines in
relational.opt. -/
inductive Tag where
  | Relational
  | Join
  | JoinApply
  | JoinNonApply
  | Grouping
  | Set
deriving DecidableEq

/-- tags gives each operator exactly the tag list of its define statement in
relational.opt. -/
def tags : Op → List Tag
  | .Scan => [.Relational]
  | .VirtualScan => [.Relational]
  | .Values => [.Relational]
  | .Select => [.Relational]
  | .Project => [.Relational]
  | .InnerJoin => [.Relational, .Join, .JoinNonApply]
  | .LeftJoin => [.Relational, .Join, .JoinNonApply]
  | .RightJoin => [.Relational, .Join, .JoinNonApply]
  | .FullJoin => [.Relational, .Join, .JoinNonApply]
  | .SemiJoin => [.Relational, .Join, .JoinNonApply]
  | .AntiJoin => [.Relational, .Join, .JoinNonApply]
  | .IndexJoin => [.Relational]
  | .LookupJoin => [.Relational]
  | .MergeJoin => [.Relational]
  | .InnerJoinApply => [.Relational, .Join, .JoinApply]
  | .LeftJoinApply => [.Relational, .Join, .JoinApply]
  | .RightJoinApply => [.Relational, .Join, .JoinApply]
  | .FullJoinApply => [.Relational, .Join, .JoinApply]
  | .SemiJoinApply => [.Relational, .Join, .JoinApply]
  | .AntiJoinApply => [.Relational, .Join, .JoinApply]
  | .GroupBy => [.Relational, .Grouping]
  | .ScalarGroupBy => [.Relational, .Grouping]
  | .DistinctOn => [.Relational, .Grouping]
  | .Union => [.Relational, .Set]
  | .Intersect => [.Relational, .Set]
  | .Except => [.Relational, .Set]
  | .UnionAll => [.Relational, .Set]
  | .IntersectAll => [.Relational, .Set]
  | .ExceptAll => [.Relational, .Set]
  | .Limit => [.Relational]
  | .Offset => [.Relational]
  | .Max1Row => [.Relational]
  | .Explain => [.Relational]
  | .ShowTraceForSession => [.Relational]
  | .RowNumber => [.Relational]
  | .Zip => [.Relational]

/-
Corpus of set-operator column correspondences recorded in the testdata
(claim C9): for every set-operator node, its SetPrivate column lists and the
output column sets of its two direct inputs.
-/

/-- Column correspondence of one set-operator node of the testdata. -/
structure SetNodeCols where
  kind : SetOp
  nodeLeftCols : List ColumnID
  nodeRightCols : List ColumnID
  nodeOutCols : List ColumnID
  leftInputCols : Finset ColumnID
  rightInputCols : Finset ColumnID
deriving DecidableEq

/-- Every set-operator node of the testdata with its SetPrivate column lists
(left columns, right columns, output columns) and the column sets of its two
inputs (testdata lines 123-126, 143-146, 162-165, 188-191, 214-217, 239-242,
276-279, 312-315, 338-341, 364-367, 389-392, 429-432, 468-471, 494-497,
520-523, 549-552, 633-636, 659-662, 685-688, 711-714, 737-740, 763-766,
789-792, 814-817, 839-842). -/
def setNodeCorpus : List SetNodeCols :=
  [⟨.union, [1, 2, 3, 1], [4, 5, 6, 7], [8, 9, 10, 11], {1, 2, 3}, {4, 5, 6, 7}⟩,
   ⟨.unionAll, [1, 2, 3, 1], [4, 5, 6, 7], [8, 9, 10, 11], {1, 2, 3}, {4, 5, 6, 7}⟩,
   ⟨.union, [2, 3], [5, 6], [8, 9], {2, 3}, {5, 6}⟩,
   ⟨.union, [2, 3], [5, 6], [8, 9], {2, 3}, {5, 6}⟩,
   ⟨.unionAll, [2, 3], [5, 6], [8, 9], {2, 3}, {5, 6}⟩,
   ⟨.intersect, [1, 2, 1], [5, 4, 7], [1, 2, 1], {1, 2}, {4, 5, 7}⟩,
   ⟨.intersectAll, [1, 2, 1], [5, 4, 7], [1, 2, 1], {1, 2}, {4, 5, 7}⟩,
   ⟨.intersect, [2, 3], [5, 6], [2, 3], {2, 3}, {5, 6}⟩,
   ⟨.intersect, [2, 3], [5, 6], [2, 3], {2, 3}, {5, 6}⟩,
   ⟨.intersectAll, [2, 3], [5, 6], [2, 3], {2, 3}, {5, 6}⟩,
   ⟨.except, [1, 1, 2], [4, 5, 5], [1, 1, 2], {1, 2}, {4, 5}⟩,
   ⟨.exceptAll, [1, 1, 2], [4, 5, 5], [1, 1, 2], {1, 2}, {4, 5}⟩,
   ⟨.except, [2, 3], [5, 6], [2, 3], {2, 3}, {5, 6}⟩,
   ⟨.except, [2, 3], [5, 6], [2, 3], {2, 3}, {5, 6}⟩,
   ⟨.exceptAll, [2, 3], [5, 6], [2, 3], {2, 3}, {5, 6}⟩,
   ⟨.exceptAll, [2, 3], [5, 6], [2, 3], {2, 3}, {5, 6}⟩,
   ⟨.union, [1, 3], [5, 7], [9, 10], {1, 3}, {5, 7}⟩,
   ⟨.intersect, [1, 3], [5, 7], [1, 3], {1, 3}, {5, 7}⟩,
   ⟨.except, [1, 3], [5, 7], [1, 3], {1, 3}, {5, 7}⟩,
   ⟨.union, [1], [5], [9], {1}, {5}⟩,
   ⟨.intersect, [1], [5], [1], {1}, {5}⟩,
   ⟨.except, [1], [5], [1], {1}, {5}⟩,
   ⟨.unionAll, [1, 3], [5, 7], [9, 10], {1, 3}, {5, 7}⟩,
   ⟨.intersectAll, [1, 3], [5, 7], [1, 3], {1, 3}, {5, 7}⟩,
   ⟨.exceptAll, [1, 3], [5, 7], [1, 3], {1, 3}, {5, 7}⟩]

/-
Model of pkg/security/password.go (claim C10).
-/

/-- Bytes models a Go byte slice as a list of byte values. -/
abbrev Bytes := List Nat

/-- GoError models a Go error value by its message string. -/
structure GoError where
  msg : String
deriving DecidableEq

/-- ErrEmptyPassword mirrors password.go line 38: the error indicating that
an empty password was attempted to be set. -/
def ErrEmptyPassword : GoError := ⟨ "empty passwords are not permitted" ⟩

/-- passwordMismatchError mirrors the error created at password.go line 98. -/
def passwordMismatchError : GoError := ⟨ "password mismatch" ⟩

/-- bytesToString models the Go conversion string(b) of a byte slice. -/
def bytesToString (bs : Bytes) : String :=
  String.mk (bs.map Char.ofNat)

/-- PromptTrace records one run of the password prompt: the strings printed
to standard output in order, and the returned (string, error) pair. -/
structure PromptTrace where
  prompts : List String
  value : String
  error : Option GoError
deriving DecidableEq

/-- The prompt printed at password.go line 82. -/
def enterPasswordPrompt : String := "Enter password: "

/-- The prompt printed at password.go line 90. -/
def confirmPasswordPrompt : String := "\nConfirm password: "

/-- The newline printed at password.go line 96. -/
def trailingNewline : String := "\n"

/-- PromptForPasswordTwice mirrors password.go lines 81-102.  The two
arguments are the results the terminal would deliver for the first and second
password read (either bytes or a read error).  The Go control flow is
followed exactly: print the first prompt and read; on read error return it;
on an empty read return ErrEmptyPassword without printing the confirmation
prompt; otherwise print the confirmation prompt and read again; on read error
return it; print the trailing newline; if the two reads are not byte-equal
return the empty string with the mismatch error, else return the first read
as a string with no error. -/
def PromptForPasswordTwice (firstRead secondRead : Bytes ⊕ GoError) :
    PromptTrace :=
  match firstRead with
  | Sum.inr e => ⟨[enterPasswordPrompt], "", some e⟩
  | Sum.inl one =>
    if one.length = 0 then ⟨[enterPasswordPrompt], "", some ErrEmptyPassword⟩
    else
      match secondRead with
      | Sum.inr e => ⟨[enterPasswordPrompt, confirmPasswordPrompt], "", some e⟩
      | Sum.inl two =>
        if one = two then
          ⟨[enterPasswordPrompt, confirmPasswordPrompt, trailingNewline],
            bytesToString one, none⟩
        else
          ⟨[enterPasswordPrompt, confirmPasswordPrompt, trailingNewline],
            "", some passwordMismatchError⟩

/-- Claim C1: for every Union (non-All) node the derived output row count is
the sum of the left and right distinct-count estimates on the full output
column set, with no deduplication against overlap, and per-requested-colset
distinct counts follow the same additive rule; in the recorded scenario
(left distinct(y,s)=1000 over 5000 rows, right distinct(z,s)=200 over 10000
rows) the reported row count is 1200 (testdata line 192), and in the spec
scenario (distinct(y)=400, distinct(z)=100) it is 500. -/
theorem union_rowCount_sums_distinct_counts :
    (∀ L R : RelStats, ∀ sp : SetPrivate,
      (deriveSetOp .union L R sp).rowCount =
        (L.colStat (translateColSet sp.OutCols.toFinset sp.OutCols sp.LeftCols)).distinctCount +
        (R.colStat (translateColSet sp.OutCols.toFinset sp.OutCols sp.RightCols)).distinctCount) ∧
    (∀ L R : RelStats, ∀ sp : SetPrivate, ∀ s : Finset ColumnID,
      ((deriveSetOp .union L R sp).colStat s).distinctCount =
        (L.colStat (translateColSet s sp.OutCols sp.LeftCols)).distinctCount +
        (R.colStat (translateColSet s sp.OutCols sp.RightCols)).distinctCount) ∧
    (deriveSetOp .union aProjYS bProjZS spUnionYS).rowCount = 1200 ∧
    (deriveSetOp .union aProjY bProjZ spUnionY).rowCount = 500 := by
  refine ⟨fun L R sp => rfl, fun L R sp s => rfl, ?_, ?_⟩ <;>
    norm_num +decide [deriveSetOp, setOpRowCount, setOpColStat, translateColSet,
      aProjYS, bProjZS, aProjY, bProjZ, spUnionYS, spUnionY,
      distinctifiedNullCount, SetOp.removesDuplicates, statUnknown]

/-- Claim C2: for every UnionAll node the derived row count is exactly
leftRowCount + rightRowCount, and every per-column-subset distinct count and
null count is the elementwise sum of the left and right statistics remapped
onto the output columns; a 5000-row left input and a 10000-row right input
yield row count 15000 (testdata line 147), and the null-injected scenario
reproduces the recorded sums of testdata line 793. -/
theorem unionAll_stats_elementwise_sum :
    (∀ L R : RelStats, ∀ sp : SetPrivate,
      (deriveSetOp .unionAll L R sp).rowCount = L.rowCount + R.rowCount) ∧
    (∀ L R : RelStats, ∀ sp : SetPrivate, ∀ s : Finset ColumnID,
      (deriveSetOp .unionAll L R sp).colStat s =
        ⟨(L.colStat (translateColSet s sp.OutCols sp.LeftCols)).distinctCount +
          (R.colStat (translateColSet s sp.OutCols sp.RightCols)).distinctCount,
         (L.colStat (translateColSet s sp.OutCols sp.LeftCols)).nullCount +
          (R.colStat (translateColSet s sp.OutCols sp.RightCols)).nullCount⟩) ∧
    (deriveSetOp .unionAll aScanStar bScanStar spUnionStar).rowCount = 15000 ∧
    (deriveSetOp .unionAll bProjXS cProjXS spUnionXS).colStat {9} =
      ⟨10000, expectedUnionAllNull9_line793⟩ ∧
    (deriveSetOp .unionAll bProjXS cProjXS spUnionXS).colStat {10} = ⟨20, 12500⟩ ∧
    (deriveSetOp .unionAll bProjXS cProjXS spUnionXS).colStat {9, 10} =
      ⟨20000, 14000⟩ ∧
    (deriveSetOp .unionAll bProjXS cProjXS spUnionXS).rowCount = 20000 := by
  refine ⟨fun L R sp => rfl, fun L R sp s => rfl, ?_, ?_, ?_, ?_, ?_⟩ <;>
    norm_num +decide [deriveSetOp, setOpRowCount, setOpColStat, translateColSet,
      aScanStar, bScanStar, bProjXS, cProjXS, spUnionStar, spUnionXS,
      expectedUnionAllNull9_line793, distinctifiedNullCount,
      SetOp.removesDuplicates, statUnknown]

/-- Claim C3: for every Intersect (non-All) node the derived output row count
is the minimum of the left and right distinct-count estimates on the output
column set; with left distinct(y,s)=1000 and right distinct(z,s)=200 the
reported row count is 200 (testdata line 342), and with right
distinct(z,s)=1000 it is 1000 (testdata line 316). -/
theorem intersect_rowCount_min_distinct :
    (∀ L R : RelStats, ∀ sp : SetPrivate,
      (deriveSetOp .intersect L R sp).rowCount =
        min (L.colStat (translateColSet sp.OutCols.toFinset sp.OutCols sp.LeftCols)).distinctCount
          (R.colStat (translateColSet sp.OutCols.toFinset sp.OutCols sp.RightCols)).distinctCount) ∧
    (deriveSetOp .intersect aProjYS bProjZS spLeftYS).rowCount = 200 ∧
    (deriveSetOp .intersect aProjYS cProjZS spLeftYS).rowCount = 1000 := by
  refine ⟨fun L R sp => rfl, ?_, ?_⟩ <;>
    norm_num +decide [deriveSetOp, setOpRowCount, setOpColStat, translateColSet,
      aProjYS, bProjZS, cProjZS, spLeftYS,
      distinctifiedNullCount, SetOp.removesDuplicates, statUnknown]

/-- Claim C4: for every Except (non-All) node the derived output row count is
the left input distinct-count estimate on the output column set, and the
whole derived statistics record is independent of the right input; in the
recorded scenarios the row count is 1000 against both right input b
(distinct(z,s)=200, testdata line 498) and right input c (distinct(z,s)=1000,
testdata line 472). -/
theorem except_rowCount_left_distinct :
    (∀ L R : RelStats, ∀ sp : SetPrivate,
      (deriveSetOp .except L R sp).rowCount =
        (L.colStat (translateColSet sp.OutCols.toFinset sp.OutCols sp.LeftCols)).distinctCount) ∧
    (∀ L R R2 : RelStats, ∀ sp : SetPrivate,
      deriveSetOp .except L R sp = deriveSetOp .except L R2 sp) ∧
    (deriveSetOp .except aProjYS bProjZS spLeftYS).rowCount = 1000 ∧
    (deriveSetOp .except aProjYS cProjZS spLeftYS).rowCount = 1000 := by
  refine ⟨fun L R sp => rfl, fun L R R2 sp => rfl, ?_, ?_⟩ <;>
    norm_num +decide [deriveSetOp, setOpRowCount, setOpColStat, translateColSet,
      aProjYS, bProjZS, cProjZS, spLeftYS,
      distinctifiedNullCount, SetOp.removesDuplicates, statUnknown]

/-- Claim C5 counterexample: IntersectAll does not copy the left input
statistics.  In the recorded null-injected scenario (testdata lines 811-834)
the derived IntersectAll null count of output column 1 is 1000 while the left
input has null(1)=2500; and in the filtered scenario (testdata lines 273-280)
the derived IntersectAll row count is 2 while the left input has 5000 rows. -/
theorem intersectAll_left_copy_counterexample :
    ((deriveSetOp .intersectAll bProjXS cProjXS spLeftXS).colStat {1}).nullCount =
      expectedIntersectAllNull1_line818 ∧
    expectedIntersectAllNull1_line818 = 1000 ∧
    (bProjXS.colStat {1}).nullCount = 2500 ∧
    ((deriveSetOp .intersectAll bProjXS cProjXS spLeftXS).colStat {1}).nullCount ≠
      (bProjXS.colStat {1}).nullCount ∧
    (deriveSetOp .intersectAll aProjXY bFilteredProj spIntersectXY).rowCount =
      expectedIntersectAllRows_line280 ∧
    expectedIntersectAllRows_line280 = 2 ∧
    aProjXY.rowCount = 5000 ∧
    (deriveSetOp .intersectAll aProjXY bFilteredProj spIntersectXY).rowCount ≠
      aProjXY.rowCount := by
  refine ⟨?_, ?_, ?_, ?_, ?_, ?_, ?_, ?_⟩ <;>
    norm_num +decide [deriveSetOp, setOpRowCount, setOpColStat, translateColSet,
      bProjXS, cProjXS, aProjXY, bFilteredProj, spLeftXS, spIntersectXY,
      expectedIntersectAllNull1_line818, expectedIntersectAllRows_line280,
      distinctifiedNullCount, SetOp.removesDuplicates, statUnknown]

/-- Claim C5 (amended): ExceptAll copies the left input statistics onto the
output columns unchanged (row count and every per-column-subset distinct and
null count), whereas IntersectAll takes the elementwise minimum of the left
and right statistics (row count, distinct counts and null counts) rather than
a copy of the left input; the recorded expectations of testdata lines 811-858
are reproduced. -/
theorem intersectAll_min_exceptAll_left_copy :
    (∀ L R : RelStats, ∀ sp : SetPrivate,
      (deriveSetOp .exceptAll L R sp).rowCount = L.rowCount) ∧
    (∀ L R : RelStats, ∀ sp : SetPrivate, ∀ s : Finset ColumnID,
      (deriveSetOp .exceptAll L R sp).colStat s =
        L.colStat (translateColSet s sp.OutCols sp.LeftCols)) ∧
    (∀ L R : RelStats, ∀ sp : SetPrivate,
      (deriveSetOp .intersectAll L R sp).rowCount = min L.rowCount R.rowCount) ∧
    (∀ L R : RelStats, ∀ sp : SetPrivate, ∀ s : Finset ColumnID,
      (deriveSetOp .intersectAll L R sp).colStat s =
        ⟨min (L.colStat (translateColSet s sp.OutCols sp.LeftCols)).distinctCount
           (R.colStat (translateColSet s sp.OutCols sp.RightCols)).distinctCount,
         min (L.colStat (translateColSet s sp.OutCols sp.LeftCols)).nullCount
           (R.colStat (translateColSet s sp.OutCols sp.RightCols)).nullCount⟩) ∧
    (deriveSetOp .intersectAll bProjXS cProjXS spLeftXS).colStat {1} = ⟨5000, 1000⟩ ∧
    (deriveSetOp .intersectAll bProjXS cProjXS spLeftXS).colStat {3} = ⟨10, 5000⟩ ∧
    (deriveSetOp .intersectAll bProjXS cProjXS spLeftXS).colStat {1, 3} =
      ⟨10000, 6250⟩ ∧
    (deriveSetOp .intersectAll bProjXS cProjXS spLeftXS).rowCount = 10000 ∧
    (deriveSetOp .exceptAll bProjXS cProjXS spLeftXS).colStat {1} = ⟨5000, 2500⟩ ∧
    (deriveSetOp .exceptAll bProjXS cProjXS spLeftXS).colStat {3} = ⟨10, 5000⟩ ∧
    (deriveSetOp .exceptAll bProjXS cProjXS spLeftXS).colStat {1, 3} =
      ⟨10000, 6250⟩ ∧
    (deriveSetOp .exceptAll bProjXS cProjXS spLeftXS).rowCount = 10000 ∧
    (deriveSetOp .exceptAll aProjXY bFilteredProj spIntersectXY).rowCount = 5000 := by
  refine ⟨fun L R sp => rfl, fun L R sp s => rfl, fun L R sp => rfl,
    fun L R sp s => rfl, ?_, ?_, ?_, ?_, ?_, ?_, ?_, ?_, ?_⟩ <;>
    norm_num +decide [deriveSetOp, setOpRowCount, setOpColStat, translateColSet,
      bProjXS, cProjXS, aProjXY, bFilteredProj, spLeftXS, spIntersectXY,
      distinctifiedNullCount, SetOp.removesDuplicates, statUnknown]

/-- Claim C6 counterexample: the Union null count of a requested column
subset is not the UnionAll null fraction multiplied by the summed distinct
count.  For output column 9 of the recorded null-injected scenario that
formula gives 3500 / 20000 * 10000 = 1750, while the recorded derived value
is 1750.35 (testdata line 637). -/
theorem union_nullCount_fraction_counterexample :
    ((deriveSetOp .unionAll bProjXS cProjXS spUnionXS).colStat {9}).nullCount = 3500 ∧
    (deriveSetOp .unionAll bProjXS cProjXS spUnionXS).rowCount = 20000 ∧
    ((deriveSetOp .union bProjXS cProjXS spUnionXS).colStat {9}).distinctCount = 10000 ∧
    ((deriveSetOp .unionAll bProjXS cProjXS spUnionXS).colStat {9}).nullCount /
        (deriveSetOp .unionAll bProjXS cProjXS spUnionXS).rowCount *
        ((deriveSetOp .union bProjXS cProjXS spUnionXS).colStat {9}).distinctCount =
      1750 ∧
    ((deriveSetOp .union bProjXS cProjXS spUnionXS).colStat {9}).nullCount =
      expectedUnionNull9_line637 ∧
    expectedUnionNull9_line637 ≠ 1750 := by
  refine ⟨?_, ?_, ?_, ?_, ?_, ?_⟩ <;>
    norm_num +decide [deriveSetOp, setOpRowCount, setOpColStat, translateColSet,
      bProjXS, cProjXS, spUnionXS, expectedUnionNull9_line637,
      distinctifiedNullCount, SetOp.removesDuplicates, statUnknown]

/-- Claim C6 (amended): the Union null count of a requested column subset is
the sum over the two inputs of that input null count after the implicit
duplicate elimination, where an input null count is rescaled by
(distinctCount + 1) / rowCount, capped at one null row when the side column
set is a single column covering the whole input; this reproduces every
recorded Union null count of the testdata (lines 637 and 715). -/
theorem union_nullCount_per_side_distinctified :
    (∀ L R : RelStats, ∀ sp : SetPrivate, ∀ s : Finset ColumnID,
      ((deriveSetOp .union L R sp).colStat s).nullCount =
        distinctifiedNullCount L.cols (translateColSet s sp.OutCols sp.LeftCols)
          (L.colStat (translateColSet s sp.OutCols sp.LeftCols)) L.rowCount +
        distinctifiedNullCount R.cols (translateColSet s sp.OutCols sp.RightCols)
          (R.colStat (translateColSet s sp.OutCols sp.RightCols)) R.rowCount) ∧
    ((deriveSetOp .union bProjXS cProjXS spUnionXS).colStat {9}).nullCount =
      expectedUnionNull9_line637 ∧
    ((deriveSetOp .union bProjXS cProjXS spUnionXS).colStat {10}).nullCount =
      expectedUnionNull10_line637 ∧
    ((deriveSetOp .union bProjXS cProjXS spUnionXS).colStat {9, 10}).nullCount =
      expectedUnionNull910_line637 ∧
    ((deriveSetOp .union bProjX cProjX spUnionX).colStat {9}).nullCount =
      expectedUnionNull9_line715 ∧
    (deriveSetOp .union bProjX cProjX spUnionX).rowCount = 10000 := by
  refine ⟨fun L R sp s => rfl, ?_, ?_, ?_, ?_, ?_⟩ <;>
    norm_num +decide [deriveSetOp, setOpRowCount, setOpColStat, translateColSet,
      bProjXS, cProjXS, bProjX, cProjX, spUnionXS, spUnionX,
      expectedUnionNull9_line637, expectedUnionNull10_line637,
      expectedUnionNull910_line637, expectedUnionNull9_line715,
      distinctifiedNullCount, SetOp.removesDuplicates, statUnknown]

/-- Claim C7: every derived key is a subset of the output columns of its
node, and every non-All set operator carries the full output column set as a
key whose distinct count equals the row count of the node; this holds for the
modelled set-operator derivation and for every node with a recorded key in
the testdata corpus. -/
theorem derived_keys_subset_of_outputCols :
    (∀ op : SetOp, ∀ L R : RelStats, ∀ sp : SetPrivate, ∀ k : Finset ColumnID,
      k ∈ setOpKeys op sp → k ⊆ (deriveSetOp op L R sp).cols) ∧
    (∀ op : SetOp, ∀ L R : RelStats, ∀ sp : SetPrivate,
      op.removesDuplicates = true →
        sp.OutCols.toFinset ∈ setOpKeys op sp ∧
        ((deriveSetOp op L R sp).colStat sp.OutCols.toFinset).distinctCount =
          (deriveSetOp op L R sp).rowCount) ∧
    (keyedNodes.all (fun n => n.2.all (fun k => decide (k ⊆ n.1))) = true) ∧
    (nonAllSetNodes.all (fun n =>
      decide (n.outputCols ∈ n.keys) && decide (n.keyDistinctCount = n.rowCount) &&
      n.keys.all (fun k => decide (k ⊆ n.outputCols))) = true) := by
  refine ⟨?_, ?_, by decide, by decide⟩
  · intro op L R sp k hk
    unfold setOpKeys at hk
    split at hk
    · simp only [List.mem_singleton] at hk
      subst hk
      exact Finset.Subset.refl _
    · simp at hk
  · intro op L R sp h
    cases op <;> simp_all [setOpKeys, SetOp.removesDuplicates, deriveSetOp, setOpRowCount]

/-- Witness for claim C7: the key of the Union node of the recorded (y,s)
scenario is the full output column set, with distinct count equal to the row
count. -/
theorem derived_keys_subset_of_outputCols_witness :
    (({8, 9} : Finset ColumnID) ⊆ (deriveSetOp .union aProjYS bProjZS spUnionYS).cols) ∧
    (spUnionYS.OutCols.toFinset ∈ setOpKeys .union spUnionYS ∧
      ((deriveSetOp .union aProjYS bProjZS spUnionYS).colStat
          spUnionYS.OutCols.toFinset).distinctCount =
        (deriveSetOp .union aProjYS bProjZS spUnionYS).rowCount) :=
  ⟨derived_keys_subset_of_outputCols.1 .union aProjYS bProjZS spUnionYS {8, 9} (by decide),
   derived_keys_subset_of_outputCols.2.1 .union aProjYS bProjZS spUnionYS rfl⟩

/-- Claim C8: in the catalog of relational.opt, the six basic join variants
carry exactly the tags Relational, Join and JoinNonApply, the six JoinApply
variants carry exactly Relational, Join and JoinApply, these twelve variants
are precisely the operators carrying the Join tag, and LookupJoin, MergeJoin
and IndexJoin do not carry it. -/
theorem join_tag_catalog :
    tags .InnerJoin = [.Relational, .Join, .JoinNonApply] ∧
    tags .LeftJoin = [.Relational, .Join, .JoinNonApply] ∧
    tags .RightJoin = [.Relational, .Join, .JoinNonApply] ∧
    tags .FullJoin = [.Relational, .Join, .JoinNonApply] ∧
    tags .SemiJoin = [.Relational, .Join, .JoinNonApply] ∧
    tags .AntiJoin = [.Relational, .Join, .JoinNonApply] ∧
    tags .InnerJoinApply = [.Relational, .Join, .JoinApply] ∧
    tags .LeftJoinApply = [.Relational, .Join, .JoinApply] ∧
    tags .RightJoinApply = [.Relational, .Join, .JoinApply] ∧
    tags .FullJoinApply = [.Relational, .Join, .JoinApply] ∧
    tags .SemiJoinApply = [.Relational, .Join, .JoinApply] ∧
    tags .AntiJoinApply = [.Relational, .Join, .JoinApply] ∧
    (∀ o : Op, Tag.Join ∈ tags o ↔
      (o = .InnerJoin ∨ o = .LeftJoin ∨ o = .RightJoin ∨ o = .FullJoin ∨
       o = .SemiJoin ∨ o = .AntiJoin ∨ o = .InnerJoinApply ∨ o = .LeftJoinApply ∨
       o = .RightJoinApply ∨ o = .FullJoinApply ∨ o = .SemiJoinApply ∨
       o = .AntiJoinApply)) ∧
    Tag.Join ∉ tags .LookupJoin ∧
    Tag.Join ∉ tags .MergeJoin ∧
    Tag.Join ∉ tags .IndexJoin := by
  refine ⟨rfl, rfl, rfl, rfl, rfl, rfl, rfl, rfl, rfl, rfl, rfl, rfl,
    fun o => by cases o <;> decide, by decide, by decide, by decide⟩

/-- Claim C9: in every set-operator node recorded in the testdata, a Union
node has output columns disjoint from the column identifiers of both inputs
(freshly synthesized), while every Intersect and Except node reuses exactly
the left column list as its output column list. -/
theorem union_fresh_intersect_except_reuse_left :
    setNodeCorpus.all (fun n =>
      (if n.kind = .union then
        decide (n.nodeOutCols.toFinset ∩ (n.leftInputCols ∪ n.rightInputCols) = ∅)
       else true) &&
      (if n.kind = .intersect ∨ n.kind = .except then
        decide (n.nodeOutCols = n.nodeLeftCols)
       else true)) = true := by decide

/-- Claim C10: PromptForPasswordTwice returns ErrEmptyPassword whenever the
first read succeeds and is empty, without issuing the confirmation prompt;
when the first read is non-empty and the second successful read differs, it
returns the empty string with the password-mismatch error; and when both
reads succeed and are byte-equal it returns the first read as a string with
no error. -/
theorem PromptForPasswordTwice_behavior (r2 : Bytes ⊕ GoError) (one two : Bytes)
    (hne : one ≠ []) (hneq : one ≠ two) :
    (PromptForPasswordTwice (Sum.inl []) r2 =
      ⟨[enterPasswordPrompt], "", some ErrEmptyPassword⟩) ∧
    ((PromptForPasswordTwice (Sum.inl []) r2).prompts = [enterPasswordPrompt]) ∧
    (PromptForPasswordTwice (Sum.inl one) (Sum.inl two) =
      ⟨[enterPasswordPrompt, confirmPasswordPrompt, trailingNewline],
        "", some passwordMismatchError⟩) ∧
    (PromptForPasswordTwice (Sum.inl one) (Sum.inl one) =
      ⟨[enterPasswordPrompt, confirmPasswordPrompt, trailingNewline],
        bytesToString one, none⟩) := by
  refine ⟨rfl, rfl, ?_, ?_⟩ <;>
    simp [PromptForPasswordTwice, hne, hneq, List.length_eq_zero]

/-- Witness for claim C10: the three behaviours at concrete reads: an empty
first read, the mismatched reads 97 and 98, and the matching reads 97. -/
theorem PromptForPasswordTwice_behavior_witness :
    (PromptForPasswordTwice (Sum.inl []) (Sum.inl [98]) =
      ⟨[enterPasswordPrompt], "", some ErrEmptyPassword⟩) ∧
    ((PromptForPasswordTwice (Sum.inl []) (Sum.inl [98])).prompts =
      [enterPasswordPrompt]) ∧
    (PromptForPasswordTwice (Sum.inl [97]) (Sum.inl [98]) =
      ⟨[enterPasswordPrompt, confirmPasswordPrompt, trailingNewline],
        "", some passwordMismatchError⟩) ∧
    (PromptForPasswordTwice (Sum.inl [97]) (Sum.inl [97]) =
      ⟨[enterPasswordPrompt, confirmPasswordPrompt, trailingNewline],
        bytesToString [97], none⟩) :=
  PromptForPasswordTwice_behavior (Sum.inl [98]) [97] [98] (by decide) (by decide)

end CockroachSpec
